import Mathlib

/-!
Verification of the `pypowsybl` package initialization module
(`src/pypowsybl/__init__.py`).

The module is a thin layer over the native binding module `_pypowsybl`:
it registers a library search path at import time and exposes four public
functions (`set_debug_mode`, `set_config_read`, `is_config_read`,
`print_version`), each a one-line delegation to the native module.

The native module itself is not part of the Python sources, so its
process-wide configuration state (debug flag, config-read flag, library
path) is modelled from the specification's description of its interface;
the Python-level functions are embedded directly from the source file.
Three views of the code are used:
  * a state-transformer view (`World`), for the flag round-trip and
    frame properties;
  * a trace view (`runTrace`), recording which native entry points are
    invoked at import time and by each public function;
  * an exception-outcome view (`Except PyErr`), for error propagation,
    where each wrapper is parameterized by the outcome of its single
    native call.
-/

namespace Pypowsybl

/-- Modelled from the spec: the process-wide configuration state owned by
the native binding module `_pypowsybl` (not in the Python sources): a debug
flag, a config-read flag, and the registered java library path. -/
structure NativeState where
  debugMode : Bool
  configRead : Bool
  javaLibraryPath : Option String
  deriving DecidableEq, Repr

/-- Ambient facts about the installed native module: the file it was loaded
from (the value of `inspect.getfile(_pypowsybl)`) and the version table
string its `get_version_table` produces. -/
structure NativeEnv where
  moduleFile : String
  versionTable : String
  deriving DecidableEq, Repr

/-- Modelled from the spec: `_pypowsybl.set_debug_mode(flag)` stores the
flag in the native module's process-wide state. -/
def nativeSetDebugMode (b : Bool) (s : NativeState) : NativeState :=
  { s with debugMode := b }

/-- Modelled from the spec: `_pypowsybl.set_config_read(flag)` stores the
flag in the native module's process-wide state. -/
def nativeSetConfigRead (b : Bool) (s : NativeState) : NativeState :=
  { s with configRead := b }

/-- Modelled from the spec: `_pypowsybl.is_config_read()` returns the
boolean currently held by the native module. -/
def nativeIsConfigRead (s : NativeState) : Bool :=
  s.configRead

/-- Modelled from the spec: `_pypowsybl.set_java_library_path(path)`
registers `path` as the library search path for the engine's shared
libraries. -/
def nativeSetJavaLibraryPath (p : String) (s : NativeState) : NativeState :=
  { s with javaLibraryPath := some p }

/-- Modelled from the spec: `_pypowsybl.get_version_table()` produces the
human-readable version report of the installed engine. -/
def nativeGetVersionTable (env : NativeEnv) : String :=
  env.versionTable

/-- Shallow embedding of `os.path.dirname` for POSIX paths, as used at
module load: the characters of the path up to the last slash, with
trailing slashes stripped unless everything before the last slash is
slashes. -/
def dirname (p : String) : String :=
  let head := (p.data.reverse.dropWhile (fun c => c ≠ '/')).reverse
  if head ≠ [] ∧ head.any (fun c => c ≠ '/') then
    String.mk ((head.reverse.dropWhile (fun c => c = '/')).reverse)
  else
    String.mk head

/-- The observable state from the Python layer's point of view: the native
module's configuration state and the process standard output. -/
structure World where
  native : NativeState
  stdout : String
  deriving DecidableEq, Repr

/-- Embedding of `set_debug_mode(debug: bool = True) -> None`: forwards
`debug` to the native setter and returns `None` (here `Unit`); the Python
default value `True` is the `optParam` default. -/
def set_debug_mode (w : World) (debug : optParam Bool true) : Unit × World :=
  ((), { w with native := nativeSetDebugMode debug w.native })

/-- Embedding of `set_config_read(read_config: bool = True) -> None`:
forwards `read_config` to the native setter and returns `None`; the Python
default value `True` is the `optParam` default. -/
def set_config_read (w : World) (read_config : optParam Bool true) : Unit × World :=
  ((), { w with native := nativeSetConfigRead read_config w.native })

/-- Embedding of `is_config_read() -> bool`: returns the native module's
config-read flag. -/
def is_config_read (w : World) : Bool × World :=
  (nativeIsConfigRead w.native, w)

/-- Embedding of the Python builtin `print(s)`: appends `s` followed by a
newline to standard output. -/
def pyPrint (s : String) (w : World) : Unit × World :=
  ((), { w with stdout := w.stdout ++ s ++ "\n" })

/-- Embedding of `print_version() -> None`: prints the native module's
version table. -/
def print_version (env : NativeEnv) (w : World) : Unit × World :=
  pyPrint (nativeGetVersionTable env) w

/-- Embedding of the module-load statement
`_pypowsybl.set_java_library_path(_os.path.dirname(_inspect.getfile(_pypowsybl)))`,
executed once at package import. -/
def moduleInit (env : NativeEnv) (s : NativeState) : NativeState :=
  nativeSetJavaLibraryPath (dirname env.moduleFile) s

/-- A call into one of the native module's entry points used by this
layer. -/
inductive NativeCall where
  | setJavaLibraryPath (path : String)
  | setDebugMode (b : Bool)
  | setConfigRead (b : Bool)
  | isConfigRead
  | getVersionTable
  deriving DecidableEq, Repr

/-- An invocation of one of the module's public functions. -/
inductive PublicCall where
  | setDebugMode (b : Bool)
  | setConfigRead (b : Bool)
  | isConfigRead
  | printVersion
  deriving DecidableEq, Repr

/-- The native calls a single public function performs: each body is one
delegation to the native module. -/
def publicCallTrace : PublicCall → List NativeCall
  | PublicCall.setDebugMode b => [NativeCall.setDebugMode b]
  | PublicCall.setConfigRead b => [NativeCall.setConfigRead b]
  | PublicCall.isConfigRead => [NativeCall.isConfigRead]
  | PublicCall.printVersion => [NativeCall.getVersionTable]

/-- The native calls performed at package import: the single
`set_java_library_path` registration. -/
def moduleInitTrace (env : NativeEnv) : List NativeCall :=
  [NativeCall.setJavaLibraryPath (dirname env.moduleFile)]

/-- The full native-call trace of importing the package and then invoking
a sequence of public functions: import runs first, then each call in
order. -/
def runTrace (env : NativeEnv) (calls : List PublicCall) : List NativeCall :=
  moduleInitTrace env ++ (calls.map publicCallTrace).flatten

/-- Exceptions surfacing from the native module: its own error type or any
other error condition. -/
inductive PyErr where
  | pypowsyblError (msg : String)
  | otherError (msg : String)
  deriving DecidableEq, Repr

/-- Exception-level embedding of `set_debug_mode`: the body is the single
native call with no handler around it, so the wrapper returns `None`
exactly when the native call returns, and re-raises the native call's
exception. -/
def set_debug_mode_exc (o : Except PyErr NativeState) :
    Except PyErr (Unit × NativeState) :=
  match o with
  | Except.ok s => Except.ok ((), s)
  | Except.error e => Except.error e

/-- Exception-level embedding of `set_config_read`: one unguarded native
call. -/
def set_config_read_exc (o : Except PyErr NativeState) :
    Except PyErr (Unit × NativeState) :=
  match o with
  | Except.ok s => Except.ok ((), s)
  | Except.error e => Except.error e

/-- Exception-level embedding of `is_config_read`: one unguarded native
call whose boolean result is returned as is. -/
def is_config_read_exc (o : Except PyErr Bool) : Except PyErr Bool :=
  match o with
  | Except.ok b => Except.ok b
  | Except.error e => Except.error e

/-- Exception-level embedding of `print_version` over the outcome of the
`get_version_table` native call and the current standard output: on
success the table is printed, on failure the exception propagates. -/
def print_version_exc (o : Except PyErr String) (out : String) :
    Except PyErr (Unit × String) :=
  match o with
  | Except.ok s => Except.ok ((), out ++ s ++ "\n")
  | Except.error e => Except.error e

/-- No public function ever calls the native `set_java_library_path`
entry point. -/
lemma publicCallTrace_no_libpath (c : PublicCall) (p : String) :
    NativeCall.setJavaLibraryPath p ∉ publicCallTrace c := by
  cases c <;> simp [publicCallTrace]

/-- A concrete environment used for counterexamples: a plausible install
location of the native module and a concrete version table string. -/
def envEx : NativeEnv :=
  { moduleFile := "/opt/py/pypowsybl/_pypowsybl.so",
    versionTable := "powsybl-core 4.2.0" }

/-- A concrete initial world used for counterexamples. -/
def w0 : World :=
  { native := { debugMode := false, configRead := true, javaLibraryPath := none },
    stdout := "" }

/-- C1: for every boolean `b`, `is_config_read()` right after
`set_config_read(b)` returns `b`: the native module's config-read flag
after the setter equals the last value passed and the getter reports
exactly that value. -/
theorem config_read_roundtrip (b : Bool) (w : World) :
    (is_config_read (set_config_read w b).2).1 = b := rfl

/-- C2: `set_debug_mode(b)` returns `None` and afterwards the native
module's process-wide debug flag equals `b`. -/
theorem set_debug_mode_forwards (b : Bool) (w : World) :
    (set_debug_mode w b).1 = () ∧
      ((set_debug_mode w b).2).native.debugMode = b :=
  ⟨rfl, rfl⟩

/-- C3: `is_config_read()` returns exactly the boolean currently held in
the native module's config-read state, with no transformation. -/
theorem is_config_read_reads_state (w : World) :
    (is_config_read w).1 = w.native.configRead := rfl

/-- C4 counterexample: `print_version()` uses Python's `print`, which
appends a newline, so on a concrete environment what is written to
standard output is not just the version-table string. -/
theorem print_version_not_only_table :
    ((print_version envEx w0).2).stdout ≠ envEx.versionTable := by
  decide

/-- C4 amended: `print_version()` requests the version table from the
native module and writes exactly that string followed by one newline to
standard output, returns `None`, and leaves the native configuration
state unchanged. -/
theorem print_version_prints_table_line (env : NativeEnv) (w : World) :
    (print_version env w).1 = () ∧
      ((print_version env w).2).stdout = w.stdout ++ env.versionTable ++ "\n" ∧
      ((print_version env w).2).native = w.native :=
  ⟨rfl, rfl, rfl⟩

/-- C5: in any run, package import performs the native
`set_java_library_path` call first, with argument the directory name of
the file containing the native module; it is performed exactly once in
the whole run, no public function ever performs it, and after import the
native state holds that path. -/
theorem init_sets_library_path_once (env : NativeEnv) (s : NativeState)
    (calls : List PublicCall) :
    runTrace env calls =
      NativeCall.setJavaLibraryPath (dirname env.moduleFile) ::
        (calls.map publicCallTrace).flatten ∧
    (runTrace env calls).count
        (NativeCall.setJavaLibraryPath (dirname env.moduleFile)) = 1 ∧
    (∀ p, NativeCall.setJavaLibraryPath p ∉ (calls.map publicCallTrace).flatten) ∧
    (moduleInit env s).javaLibraryPath = some (dirname env.moduleFile) := by
  have hno : ∀ p, NativeCall.setJavaLibraryPath p ∉ (calls.map publicCallTrace).flatten := by
    intro p hmem
    rcases List.mem_flatten.mp hmem with ⟨l, hl, hin⟩
    rcases List.mem_map.mp hl with ⟨c, _, rfl⟩
    exact publicCallTrace_no_libpath c p hin
  refine ⟨rfl, ?_, hno, rfl⟩
  have hz : ((calls.map publicCallTrace).flatten).count
      (NativeCall.setJavaLibraryPath (dirname env.moduleFile)) = 0 :=
    List.count_eq_zero.mpr (hno (dirname env.moduleFile))
  simp [runTrace, moduleInitTrace, List.count_cons, hz]

/-- C6: each public function performs a single unguarded native call, so
it raises if and only if the native call raises, and the exception
propagates unchanged. -/
theorem exceptions_propagate_unchanged
    (o1 o2 : Except PyErr NativeState) (ob : Except PyErr Bool)
    (os : Except PyErr String) (out : String) (e : PyErr) :
    (set_debug_mode_exc o1 = Except.error e ↔ o1 = Except.error e) ∧
    (set_config_read_exc o2 = Except.error e ↔ o2 = Except.error e) ∧
    (is_config_read_exc ob = Except.error e ↔ ob = Except.error e) ∧
    (print_version_exc os out = Except.error e ↔ os = Except.error e) := by
  refine ⟨?_, ?_, ?_, ?_⟩
  · cases o1 <;> simp [set_debug_mode_exc]
  · cases o2 <;> simp [set_config_read_exc]
  · cases ob <;> simp [is_config_read_exc]
  · cases os <;> simp [print_version_exc]

/-- C7: when the native `get_version_table` call succeeds,
`print_version()` raises no error and what it writes to standard output
(the table followed by a newline) is non-empty. -/
theorem print_version_succeeds_nonempty
    (o : Except PyErr String) (out : String) (h : ∃ s, o = Except.ok s) :
    ∃ s, o = Except.ok s ∧
      print_version_exc o out = Except.ok ((), out ++ s ++ "\n") ∧
      s ++ "\n" ≠ "" := by
  rcases h with ⟨s, rfl⟩
  refine ⟨s, rfl, rfl, ?_⟩
  intro hemp
  have h1 : (s ++ "\n").length = 0 := by simp [hemp]
  rw [String.length_append] at h1
  have h2 : ("\n").length = 1 := rfl
  omega

/-- C7 witness: the theorem at the concrete successful outcome holding
the table string "powsybl-core 4.2.0" and empty initial output. -/
theorem print_version_succeeds_nonempty_witness :
    ∃ s, (Except.ok "powsybl-core 4.2.0" : Except PyErr String) = Except.ok s ∧
      print_version_exc (Except.ok "powsybl-core 4.2.0") "" =
        Except.ok ((), "" ++ s ++ "\n") ∧
      s ++ "\n" ≠ "" :=
  print_version_succeeds_nonempty (Except.ok "powsybl-core 4.2.0") ""
    ⟨"powsybl-core 4.2.0", rfl⟩

/-- C8: both setters default their parameter to `True`: calling them with
no argument equals calling them with `true`. -/
theorem default_arguments_true (w : World) :
    set_debug_mode w = set_debug_mode w true ∧
      set_config_read w = set_config_read w true :=
  ⟨rfl, rfl⟩

/-- C9: the two configuration flags are independent: `set_debug_mode`
leaves the config-read flag (and what `is_config_read` returns)
unchanged, and `set_config_read` leaves the debug flag unchanged. -/
theorem flags_independent (b : Bool) (w : World) :
    ((set_debug_mode w b).2).native.configRead = w.native.configRead ∧
      (is_config_read (set_debug_mode w b).2).1 = (is_config_read w).1 ∧
      ((set_config_read w b).2).native.debugMode = w.native.debugMode :=
  ⟨rfl, rfl, rfl⟩

/-- C10: `is_config_read()` is a read-only query: it leaves the whole
observable state unchanged, so two consecutive calls with no intervening
setter return equal values. -/
theorem is_config_read_pure (w : World) :
    (is_config_read w).2 = w ∧
      (is_config_read (is_config_read w).2).1 = (is_config_read w).1 :=
  ⟨rfl, rfl⟩

end Pypowsybl
